import Mathlib

/-!
Shallow embedding of the hackathon-management REST API (users, events, teams,
enrollments, submissions, announcements, certificates) and proofs about its
request handlers.  Relational rows and document-store collections are modelled
as Lean lists; each handler is a pure function from the store state and the
request to a response envelope paired with the successor state.  HTTP status
codes are plain numerals matching the HTTPSTATUS configuration used by the
controllers (200 OK, 201 CREATED, 400 BAD_REQUEST, 403 FORBIDDEN, 404
NOT_FOUND, 409 CONFLICT).
-/

/-- Relational users row (table users: userid, name, email, password,
authprovider, role, createdat). -/
structure UserRecord where
  userid : Nat
  name : String
  email : String
  password : String
  authprovider : String
  role : String
  createdat : Nat
deriving DecidableEq

/-- Relational events row; only the columns the embedded handlers read
(EventID, OrganizerID). -/
structure EventRow where
  eventID : Nat
  organizerID : Nat
deriving DecidableEq

/-- Relational team_members row (TeamId, UserId, Role), Role being Leader or
Member. -/
structure TeamMemberRow where
  teamId : Nat
  userId : Nat
  role : String
deriving DecidableEq

/-- Relational event_enrollments row (EventID, UserID, Status), Status being
Enrolled, Cancelled or Waitlisted. -/
structure EnrollmentRow where
  eventID : Nat
  userID : Nat
  status : String
deriving DecidableEq

/-- The relational store: the tables the embedded handlers query. -/
structure SqlDb where
  users : List UserRecord
  events : List EventRow
  teamIds : List Nat
  team_members : List TeamMemberRow
  event_enrollments : List EnrollmentRow
deriving DecidableEq

/-- JavaScript truthiness of an optional numeric body field: a missing field
and the number 0 are falsy. -/
def truthyNat : Option Nat → Bool
  | none => false
  | some n => n != 0

/-- JavaScript truthiness of an optional string body field: a missing field
and the empty string are falsy. -/
def truthyStr : Option String → Bool
  | none => false
  | some s => s != ""

/-- Named identifiers handed to the reference validator. -/
structure RefIds where
  eventId : Option Nat := none
  userId : Option Nat := none
  teamId : Option Nat := none

/-- Per-field error descriptor returned by the reference validator. -/
structure RefError where
  field : String
  message : String
deriving DecidableEq

/-- Modelled from the spec: the file utils/validation.util.js is not under
src (only its callers are).  Spec 4.1 Reference Validator: given a set of
named IDs (eventId, userId, teamId), confirms each exists in the relational
store; returns a list of per-field error descriptors (empty list = all
valid); it never raises a fatal error, being a deterministic existence
check. -/
def validateReferences (db : SqlDb) (ids : RefIds) : List RefError :=
  (match ids.eventId with
    | some e =>
      if db.events.any (fun ev => ev.eventID == e) then []
      else [⟨"eventId", "Referenced event does not exist"⟩]
    | none => []) ++
  (match ids.userId with
    | some u =>
      if db.users.any (fun x => x.userid == u) then []
      else [⟨"userId", "Referenced user does not exist"⟩]
    | none => []) ++
  (match ids.teamId with
    | some t =>
      if db.teamIds.any (fun x => x == t) then []
      else [⟨"teamId", "Referenced team does not exist"⟩]
    | none => [])

/-- SQL COUNT(*) FROM team_members WHERE TeamId = teamId AND UserId = userId. -/
def teamMemberCount (db : SqlDb) (teamId userId : Nat) : Nat :=
  (db.team_members.filter (fun m => m.teamId == teamId && m.userId == userId)).length

/-- SQL COUNT(*) FROM team_members WHERE TeamId = teamId AND UserId = userId
AND Role = Leader. -/
def teamLeaderCount (db : SqlDb) (teamId userId : Nat) : Nat :=
  (db.team_members.filter
    (fun m => m.teamId == teamId && m.userId == userId && m.role == "Leader")).length

/-- SQL COUNT(*) FROM events WHERE EventID = eventId AND OrganizerID =
organizerId. -/
def organizerCount (db : SqlDb) (eventId organizerId : Nat) : Nat :=
  (db.events.filter (fun e => e.eventID == eventId && e.organizerID == organizerId)).length

/-- SQL COUNT(*) FROM event_enrollments WHERE EventID = eventId AND UserID =
userId AND Status = Enrolled. -/
def enrolledCount (db : SqlDb) (eventId userId : Nat) : Nat :=
  (db.event_enrollments.filter
    (fun r => r.eventID == eventId && r.userID == userId && r.status == "Enrolled")).length

/-- Submission document (models/submission.model.js): eventId, teamId, title,
description, track, optional links, docs list, round (default 1),
submittedAt; id stands for the store-generated identifier. -/
structure SubmissionDoc where
  id : Nat
  eventId : Nat
  teamId : Nat
  title : String
  description : String
  track : String
  githubUrl : Option String
  videoUrl : Option String
  docs : List String
  round : Nat
  submittedAt : Nat
deriving DecidableEq

/-- Response envelope for the submission handlers: HTTP status, success flag,
and the validation errors array when present. -/
structure SubResp where
  status : Nat
  success : Bool
  errors : List RefError := []
deriving DecidableEq

/-- Body of POST /submissions as destructured by createSubmission. -/
structure CreateSubmissionReq where
  eventId : Option Nat := none
  teamId : Option Nat := none
  title : Option String := none
  description : Option String := none
  track : Option String := none
  githubUrl : Option String := none
  videoUrl : Option String := none
  docs : Option (List String) := none
  round : Option Nat := none

/-- createSubmission (src/controllers/submission.controller.js): required
fields, reference validation, team-membership gate, duplicate pre-check on
(eventId, teamId, round), then insert. -/
def createSubmission (db : SqlDb) (subs : List SubmissionDoc) (nextId now userId : Nat)
    (req : CreateSubmissionReq) : SubResp × List SubmissionDoc :=
  let round := req.round.getD 1
  if !(truthyNat req.eventId && truthyNat req.teamId && truthyStr req.title &&
       truthyStr req.description && truthyStr req.track) then
    (⟨400, false, []⟩, subs)
  else
    let eventId := req.eventId.getD 0
    let teamId := req.teamId.getD 0
    let validationErrors :=
      validateReferences db { eventId := some eventId, teamId := some teamId }
    if validationErrors.length > 0 then
      (⟨400, false, validationErrors⟩, subs)
    else if teamMemberCount db teamId userId == 0 then
      (⟨403, false, []⟩, subs)
    else if subs.any (fun s => s.eventId == eventId && s.teamId == teamId && s.round == round) then
      (⟨409, false, []⟩, subs)
    else
      (⟨201, true, []⟩,
       subs ++ [⟨nextId, eventId, teamId, req.title.getD "", req.description.getD "",
                 req.track.getD "", req.githubUrl, req.videoUrl, req.docs.getD [], round, now⟩])

/-- Body of PATCH /submissions/:id; every field of the document may appear. -/
structure UpdateSubmissionBody where
  eventId : Option Nat := none
  teamId : Option Nat := none
  submittedAt : Option Nat := none
  title : Option String := none
  description : Option String := none
  track : Option String := none
  githubUrl : Option String := none
  videoUrl : Option String := none
  docs : Option (List String) := none
  round : Option Nat := none

/-- Mongoose findByIdAndUpdate applied to one submission document: every
field present in the body overwrites the stored one. -/
def applySubmissionUpdate (s : SubmissionDoc) (b : UpdateSubmissionBody) : SubmissionDoc :=
  { s with
    eventId := b.eventId.getD s.eventId
    teamId := b.teamId.getD s.teamId
    submittedAt := b.submittedAt.getD s.submittedAt
    title := b.title.getD s.title
    description := b.description.getD s.description
    track := b.track.getD s.track
    githubUrl := match b.githubUrl with | some g => some g | none => s.githubUrl
    videoUrl := match b.videoUrl with | some v => some v | none => s.videoUrl
    docs := b.docs.getD s.docs
    round := b.round.getD s.round }

/-- updateSubmission (src/controllers/submission.controller.js): not-found
check, team-membership gate, then it deletes eventId, teamId and submittedAt
from the caller-supplied body and applies the rest. -/
def updateSubmission (db : SqlDb) (subs : List SubmissionDoc) (userId id : Nat)
    (body : UpdateSubmissionBody) : SubResp × List SubmissionDoc :=
  match subs.find? (fun s => s.id == id) with
  | none => (⟨404, false, []⟩, subs)
  | some submission =>
    if teamMemberCount db submission.teamId userId == 0 then
      (⟨403, false, []⟩, subs)
    else
      let updateData := { body with eventId := none, teamId := none, submittedAt := none }
      (⟨200, true, []⟩, subs.map (fun s => if s.id == id then applySubmissionUpdate s updateData else s))

/-- deleteSubmission (src/controllers/submission.controller.js): not-found
check, team-Leader gate, then delete by id. -/
def deleteSubmission (db : SqlDb) (subs : List SubmissionDoc) (userId id : Nat) :
    SubResp × List SubmissionDoc :=
  match subs.find? (fun s => s.id == id) with
  | none => (⟨404, false, []⟩, subs)
  | some submission =>
    if teamLeaderCount db submission.teamId userId == 0 then
      (⟨403, false, []⟩, subs)
    else
      (⟨200, true, []⟩, subs.filter (fun s => !(s.id == id)))

/-- Pairwise key distinctness of a list: no later element shares its key with
an earlier one. -/
def uniqueBy {α κ : Type} [BEq κ] (key : α → κ) : List α → Bool
  | [] => true
  | x :: rest => !(rest.any (fun y => key x == key y)) && uniqueBy key rest

/-- Key of the submission uniqueness invariant: (eventId, teamId, round). -/
def subKey (s : SubmissionDoc) : Nat × Nat × Nat := (s.eventId, s.teamId, s.round)

/-- At most one submission per (eventId, teamId, round). -/
def subUnique (subs : List SubmissionDoc) : Bool := uniqueBy subKey subs

/-- Key of the certificate uniqueness invariant: (eventId, userId). -/
structure CertificateDoc where
  id : Nat
  eventId : Nat
  userId : Nat
  certificateUrl : String
deriving DecidableEq

def certKey (c : CertificateDoc) : Nat × Nat := (c.eventId, c.userId)

/-- At most one certificate per (eventId, userId). -/
def certUnique (certs : List CertificateDoc) : Bool := uniqueBy certKey certs

theorem any_ext {α : Type} (l : List α) (p q : α → Bool) (h : ∀ x, p x = q x) :
    l.any p = l.any q := by
  induction l with
  | nil => rfl
  | cons a t ih => simp [List.any_cons, h a, ih]

theorem uniqueBy_append_single {α κ : Type} [BEq κ] (key : α → κ) (l : List α) (n : α)
    (hl : uniqueBy key l = true) (hn : l.any (fun x => key x == key n) = false) :
    uniqueBy key (l ++ [n]) = true := by
  induction l with
  | nil => rfl
  | cons a t ih =>
    simp only [uniqueBy, Bool.and_eq_true, Bool.not_eq_true'] at hl
    simp only [List.any_cons, Bool.or_eq_false_iff] at hn
    simp only [List.cons_append, uniqueBy, Bool.and_eq_true, Bool.not_eq_true']
    refine ⟨?_, ih hl.2 hn.2⟩
    rw [List.any_eq_false]
    intro x hx
    rcases List.mem_append.mp hx with h | h
    · have h1 := hl.1
      rw [List.any_eq_false] at h1
      exact h1 x h
    · simp only [List.mem_singleton] at h
      subst h
      simp [hn.1]

theorem uniqueBy_filter {α κ : Type} [BEq κ] (key : α → κ) (p : α → Bool) (l : List α)
    (hl : uniqueBy key l = true) : uniqueBy key (l.filter p) = true := by
  induction l with
  | nil => rfl
  | cons a t ih =>
    simp only [uniqueBy, Bool.and_eq_true, Bool.not_eq_true'] at hl
    by_cases hp : p a
    · simp only [List.filter_cons, hp, if_true, uniqueBy, Bool.and_eq_true, Bool.not_eq_true']
      refine ⟨?_, ih hl.2⟩
      have h1 := hl.1
      rw [List.any_eq_false] at h1 ⊢
      intro x hx
      exact h1 x (List.mem_of_mem_filter hx)
    · simp only [List.filter_cons, hp, if_false]
      exact ih hl.2

theorem uniqueBy_map_keyeq {α κ : Type} [BEq κ] (key : α → κ) (f : α → α)
    (hf : ∀ x, key (f x) = key x) (l : List α) (hl : uniqueBy key l = true) :
    uniqueBy key (l.map f) = true := by
  induction l with
  | nil => rfl
  | cons a t ih =>
    simp only [uniqueBy, Bool.and_eq_true, Bool.not_eq_true'] at hl
    simp only [List.map_cons, uniqueBy, Bool.and_eq_true, Bool.not_eq_true', List.any_map]
    refine ⟨?_, ih hl.2⟩
    have h1 := hl.1
    rw [List.any_eq_false] at h1 ⊢
    intro x hx
    simpa [Function.comp, hf] using h1 x hx

/-- Response envelope for the certificate handlers. -/
structure CertResp where
  status : Nat
  success : Bool
  errors : List RefError := []
deriving DecidableEq

/-- Body of POST /certificates as destructured by issueCertificate. -/
structure IssueCertReq where
  eventId : Option Nat := none
  userId : Option Nat := none
  certificateUrl : Option String := none

/-- issueCertificate (certificate controller): required fields, reference
validation on eventId and userId, organizer gate, Enrolled-row business rule,
duplicate pre-check on (eventId, userId), then insert. -/
def issueCertificate (db : SqlDb) (certs : List CertificateDoc) (nextId organizerId : Nat)
    (req : IssueCertReq) : CertResp × List CertificateDoc :=
  if !(truthyNat req.eventId && truthyNat req.userId && truthyStr req.certificateUrl) then
    (⟨400, false, []⟩, certs)
  else
    let eventId := req.eventId.getD 0
    let userId := req.userId.getD 0
    let validationErrors :=
      validateReferences db { eventId := some eventId, userId := some userId }
    if validationErrors.length > 0 then
      (⟨400, false, validationErrors⟩, certs)
    else if organizerCount db eventId organizerId == 0 then
      (⟨403, false, []⟩, certs)
    else if enrolledCount db eventId userId == 0 then
      (⟨400, false, []⟩, certs)
    else if certs.any (fun c => c.eventId == eventId && c.userId == userId) then
      (⟨409, false, []⟩, certs)
    else
      (⟨201, true, []⟩, certs ++ [⟨nextId, eventId, userId, req.certificateUrl.getD ""⟩])

/-- updateCertificate (certificate controller): required-URL check, not-found
check, organizer gate, then findByIdAndUpdate with the single-field body
consisting of certificateUrl. -/
def updateCertificate (db : SqlDb) (certs : List CertificateDoc) (organizerId id : Nat)
    (certificateUrl : Option String) : CertResp × List CertificateDoc :=
  if !(truthyStr certificateUrl) then
    (⟨400, false, []⟩, certs)
  else
    match certs.find? (fun c => c.id == id) with
    | none => (⟨404, false, []⟩, certs)
    | some certificate =>
      if organizerCount db certificate.eventId organizerId == 0 then
        (⟨403, false, []⟩, certs)
      else
        (⟨200, true, []⟩,
         certs.map (fun c =>
           if c.id == id then { c with certificateUrl := certificateUrl.getD "" } else c))

/-- deleteCertificate (certificate controller): not-found check, organizer
gate, then delete by id. -/
def deleteCertificate (db : SqlDb) (certs : List CertificateDoc) (organizerId id : Nat) :
    CertResp × List CertificateDoc :=
  match certs.find? (fun c => c.id == id) with
  | none => (⟨404, false, []⟩, certs)
  | some certificate =>
    if organizerCount db certificate.eventId organizerId == 0 then
      (⟨403, false, []⟩, certs)
    else
      (⟨200, true, []⟩, certs.filter (fun c => !(c.id == id)))

/-- Per-item outcome lists accumulated by bulkIssueCertificates: issued holds
(userId, certificateId), skipped holds userId (reason: certificate already
exists), errors holds (userId, error message). -/
structure BulkResults where
  issued : List (Nat × Nat) := []
  skipped : List Nat := []
  errors : List (Nat × String) := []
deriving DecidableEq

/-- Summary block of the bulk-issuance response. -/
structure BulkSummary where
  total : Nat
  issued : Nat
  skipped : Nat
  errors : Nat
deriving DecidableEq

/-- Response envelope of bulkIssueCertificates; results and summary are
meaningful only on the 200 path, and default-initialised on error paths. -/
structure BulkResp where
  status : Nat
  success : Bool
  refErrors : List RefError := []
  results : BulkResults := {}
  summary : BulkSummary := ⟨0, 0, 0, 0⟩
deriving DecidableEq

/-- Body of POST /certificates/bulk-issue. -/
structure BulkReq where
  eventId : Option Nat := none
  userIds : Option (List Nat) := none
  certificateUrl : Option String := none

/-- One iteration of the for-loop of bulkIssueCertificates: validate the user
reference, check the Enrolled row, skip on an existing certificate, otherwise
insert; exactly one outcome list is extended.  The catch branch of the source
is unreachable in this pure model. -/
def bulkStep (db : SqlDb) (eventId : Nat) (certificateUrl : String)
    (acc : BulkResults × List CertificateDoc × Nat) (userId : Nat) :
    BulkResults × List CertificateDoc × Nat :=
  let (results, certs, nextId) := acc
  if (validateReferences db { userId := some userId }).length > 0 then
    ({ results with errors := results.errors ++ [(userId, "User not found")] }, certs, nextId)
  else if enrolledCount db eventId userId == 0 then
    ({ results with
       errors := results.errors ++ [(userId, "User was not enrolled in this event")] },
     certs, nextId)
  else if certs.any (fun c => c.eventId == eventId && c.userId == userId) then
    ({ results with skipped := results.skipped ++ [userId] }, certs, nextId)
  else
    ({ results with issued := results.issued ++ [(userId, nextId)] },
     certs ++ [⟨nextId, eventId, userId, certificateUrl⟩], nextId + 1)

/-- bulkIssueCertificates (certificate controller): required fields including
a non-empty userIds array, event reference validation, organizer gate, then
the per-target loop; it always responds 200 after the loop, with per-item
outcomes and a summary. -/
def bulkIssueCertificates (db : SqlDb) (certs : List CertificateDoc) (nextId organizerId : Nat)
    (req : BulkReq) : BulkResp × List CertificateDoc :=
  if !(truthyNat req.eventId && (match req.userIds with
        | some l => !(l.isEmpty)
        | none => false) && truthyStr req.certificateUrl) then
    (⟨400, false, [], {}, ⟨0, 0, 0, 0⟩⟩, certs)
  else
    let eventId := req.eventId.getD 0
    let userIds := req.userIds.getD []
    let certificateUrl := req.certificateUrl.getD ""
    let validationErrors := validateReferences db { eventId := some eventId }
    if validationErrors.length > 0 then
      (⟨400, false, validationErrors, {}, ⟨0, 0, 0, 0⟩⟩, certs)
    else if organizerCount db eventId organizerId == 0 then
      (⟨403, false, [], {}, ⟨0, 0, 0, 0⟩⟩, certs)
    else
      let final := userIds.foldl (bulkStep db eventId certificateUrl) ({}, certs, nextId)
      let results := final.1
      (⟨200, true, [], results,
        ⟨userIds.length, results.issued.length, results.skipped.length, results.errors.length⟩⟩,
       final.2.1)

/-- Announcement document (models/announcement.model.js): eventId, authorId,
message, isImportant; id stands for the store-generated identifier. -/
structure AnnouncementDoc where
  id : Nat
  eventId : Nat
  authorId : Nat
  message : String
  isImportant : Bool
deriving DecidableEq

/-- Response envelope for the announcement handlers. -/
structure AnnResp where
  status : Nat
  success : Bool
deriving DecidableEq

/-- Body of PATCH /announcements/:id; any document field may appear. -/
structure AnnUpdateBody where
  eventId : Option Nat := none
  authorId : Option Nat := none
  message : Option String := none
  isImportant : Option Bool := none

/-- Mongoose findByIdAndUpdate applied to one announcement document. -/
def applyAnnouncementUpdate (a : AnnouncementDoc) (b : AnnUpdateBody) : AnnouncementDoc :=
  { a with
    eventId := b.eventId.getD a.eventId
    authorId := b.authorId.getD a.authorId
    message := b.message.getD a.message
    isImportant := b.isImportant.getD a.isImportant }

/-- updateAnnouncement (announcement controller): not-found check, organizer
gate, then it deletes eventId and authorId from the caller-supplied body and
applies the rest. -/
def updateAnnouncement (db : SqlDb) (anns : List AnnouncementDoc) (userId id : Nat)
    (body : AnnUpdateBody) : AnnResp × List AnnouncementDoc :=
  match anns.find? (fun a => a.id == id) with
  | none => (⟨404, false⟩, anns)
  | some announcement =>
    if organizerCount db announcement.eventId userId == 0 then
      (⟨403, false⟩, anns)
    else
      let updateData := { body with eventId := none, authorId := none }
      (⟨200, true⟩,
       anns.map (fun a => if a.id == id then applyAnnouncementUpdate a updateData else a))

/-- Modelled from the spec: password hashing is delegated to bcrypt, an
external capability excluded from the repository core (utils/Bcrypt.util.js
only wraps it).  A bcrypt digest carries an algorithm/cost prefix, so the
stored hash of a password is never the plaintext password itself. -/
def hashPassword (password : String) : String :=
  "$2b$10$" ++ password

/-- ASCII whitespace test used by the trim model. -/
def isWsC (c : Char) : Bool := c == ' ' || c == '\t' || c == '\n' || c == '\r'

/-- Leading and trailing whitespace removal on the character list. -/
def trimChars (l : List Char) : List Char :=
  ((l.dropWhile isWsC).reverse.dropWhile isWsC).reverse

/-- Model of the zod .trim() transform (external validation library). -/
def strTrim (s : String) : String := ⟨trimChars s.data⟩

/-- ASCII lower-casing of one character. -/
def lowerChar (c : Char) : Char :=
  if 65 ≤ c.toNat && c.toNat ≤ 90 then Char.ofNat (c.toNat + 32) else c

/-- Model of the zod .toLowerCase() transform (external validation library). -/
def strLower (s : String) : String := ⟨s.data.map lowerChar⟩

/-- JSON object of one users row as the SQL driver returns it (SELECT * /
OUTPUT INSERTED.*), as an association list of column name and value. -/
def rowOf (u : UserRecord) : List (String × String) :=
  [("userid", toString u.userid), ("name", u.name), ("email", u.email),
   ("password", u.password), ("authprovider", u.authprovider), ("role", u.role),
   ("createdat", toString u.createdat)]

/-- JavaScript rest-destructuring dropping the password key from a user row. -/
def stripPassword (row : List (String × String)) : List (String × String) :=
  row.filter (fun kv => kv.1 != "password")

/-- Response envelope for the user handlers: data holds the returned user
rows (one element for the single-row handlers, empty on failure). -/
structure UserResp where
  status : Nat
  success : Bool
  data : List (List (String × String)) := []
deriving DecidableEq

/-- Body of POST /users as validated by createUserSchema. -/
structure CreateUserBody where
  name : String
  email : String
  password : String
  authprovider : String
  role : String

/-- Zod createUserSchema (src/validator/user.validator.js): name 2..255,
email well-formed and at most 255, password 6..255, enumerated authprovider
and role.  Email well-formedness is approximated by the presence of the at
sign, the exact format being the validation library, an external
collaborator. -/
def createUserSchemaOk (b : CreateUserBody) : Bool :=
  decide (2 ≤ (strTrim b.name).data.length) && decide ((strTrim b.name).data.length ≤ 255) &&
  b.email.data.contains '@' && decide (b.email.data.length ≤ 255) &&
  decide (6 ≤ b.password.data.length) && decide (b.password.data.length ≤ 255) &&
  ["email", "google", "github"].contains b.authprovider &&
  ["participant", "organizer", "judge"].contains b.role

/-- createUser (src/controllers/user.controllers.simple.js): zod validation,
duplicate-email pre-check, INSERT of the validated fields — the password
column receives the request password value — then the response row with the
password key removed. -/
def createUser (users : List UserRecord) (nextId now : Nat) (b : CreateUserBody) :
    UserResp × List UserRecord :=
  if !(createUserSchemaOk b) then
    (⟨400, false, []⟩, users)
  else
    let name := strTrim b.name
    let email := strLower b.email
    if (users.filter (fun u => u.email == email)).length > 0 then
      (⟨409, false, []⟩, users)
    else
      let newUser : UserRecord := ⟨nextId, name, email, b.password, b.authprovider, b.role, now⟩
      (⟨201, true, [stripPassword (rowOf newUser)]⟩, users ++ [newUser])

/-- getUserById (src/controllers/user.controllers.simple.js): positive-id
check, SELECT by userid, password key removed from the returned row.  The
parseInt NaN-or-nonpositive rejection is the userid = 0 case of the Nat
parameter. -/
def getUserById (users : List UserRecord) (userid : Nat) : UserResp :=
  if userid == 0 then ⟨400, false, []⟩
  else
    match users.find? (fun u => u.userid == userid) with
    | none => ⟨404, false, []⟩
    | some user => ⟨200, true, [stripPassword (rowOf user)]⟩

/-- Insertion into a list kept in descending createdat order. -/
def insertDesc (u : UserRecord) : List UserRecord → List UserRecord
  | [] => [u]
  | v :: rest => if u.createdat ≤ v.createdat then v :: insertDesc u rest else u :: v :: rest

/-- ORDER BY createdat DESC. -/
def sortByCreatedAtDesc : List UserRecord → List UserRecord
  | [] => []
  | u :: rest => insertDesc u (sortByCreatedAtDesc rest)

/-- getAllUsers (src/controllers/user.controllers.simple.js): pagination
bounds check, SELECT with OFFSET/FETCH over the createdat-descending order,
password key removed from every returned row. -/
def getAllUsers (users : List UserRecord) (page limit : Nat) : UserResp :=
  let offset := (page - 1) * limit
  if page < 1 || limit < 1 || limit > 100 then ⟨400, false, []⟩
  else
    ⟨200, true,
     (((sortByCreatedAtDesc users).drop offset).take limit).map
       (fun u => stripPassword (rowOf u))⟩

/-- Body of PUT /users/:userid as validated by updateUserSchema; every field
optional. -/
structure UpdateUserBody where
  name : Option String := none
  email : Option String := none
  password : Option String := none
  authprovider : Option String := none
  role : Option String := none

/-- Zod updateUserSchema: each supplied field must satisfy its constraint. -/
def updateUserSchemaOk (b : UpdateUserBody) : Bool :=
  (match b.name with
    | some n => decide (2 ≤ (strTrim n).data.length) && decide ((strTrim n).data.length ≤ 255)
    | none => true) &&
  (match b.email with
    | some e => e.data.contains '@' && decide (e.data.length ≤ 255)
    | none => true) &&
  (match b.password with
    | some p => decide (6 ≤ p.data.length) && decide (p.data.length ≤ 255)
    | none => true) &&
  (match b.authprovider with
    | some a => ["email", "google", "github"].contains a
    | none => true) &&
  (match b.role with
    | some r => ["participant", "organizer", "judge"].contains r
    | none => true)

/-- Dynamic SET clause of updateUser: each supplied validated field
overwrites the stored column. -/
def applyUserUpdate (u : UserRecord) (b : UpdateUserBody) : UserRecord :=
  { u with
    name := (b.name.map strTrim).getD u.name
    email := (b.email.map strLower).getD u.email
    password := b.password.getD u.password
    authprovider := b.authprovider.getD u.authprovider
    role := b.role.getD u.role }

/-- True when the body supplies at least one field to update. -/
def hasUpdateFields (b : UpdateUserBody) : Bool :=
  b.name.isSome || b.email.isSome || b.password.isSome ||
  b.authprovider.isSome || b.role.isSome

/-- updateUser (src/controllers/user.controllers.simple.js): positive-id
check, zod validation, existence check, duplicate-email check against other
users, no-fields check, dynamic UPDATE, password key removed from the
returned row. -/
def updateUser (users : List UserRecord) (userid : Nat) (b : UpdateUserBody) :
    UserResp × List UserRecord :=
  if userid == 0 then (⟨400, false, []⟩, users)
  else if !(updateUserSchemaOk b) then (⟨400, false, []⟩, users)
  else
    match users.find? (fun u => u.userid == userid) with
    | none => (⟨404, false, []⟩, users)
    | some user =>
      if (match b.email with
          | some e => users.any (fun u => u.email == strLower e && u.userid != userid)
          | none => false) then
        (⟨409, false, []⟩, users)
      else if !(hasUpdateFields b) then
        (⟨400, false, []⟩, users)
      else
        (⟨200, true, [stripPassword (rowOf (applyUserUpdate user b))]⟩,
         users.map (fun u => if u.userid == userid then applyUserUpdate u b else u))

/-- SQL LIKE with wildcards on both sides: substring containment. -/
def strContains (s pat : String) : Bool :=
  decide (List.IsInfix pat.data s.data)

/-- searchUsers (src/controllers/user.controllers.simple.js): minimum-length
check on the trimmed term, SELECT with LIKE on name or email ordered by
createdat descending, password key removed from every returned row. -/
def searchUsers (users : List UserRecord) (q : String) : UserResp :=
  if (strTrim q).data.length < 2 then ⟨400, false, []⟩
  else
    let term := strTrim q
    ⟨200, true,
     (sortByCreatedAtDesc
        (users.filter (fun u => strContains u.name term || strContains u.email term))).map
       (fun u => stripPassword (rowOf u))⟩

/-- getUsersByRole (src/controllers/user.controllers.simple.js): allowed-role
check, SELECT by role ordered by createdat descending, password key removed
from every returned row. -/
def getUsersByRole (users : List UserRecord) (role : String) : UserResp :=
  if !(["participant", "organizer", "judge"].contains role) then ⟨400, false, []⟩
  else
    ⟨200, true,
     (sortByCreatedAtDesc (users.filter (fun u => u.role == role))).map
       (fun u => stripPassword (rowOf u))⟩

/-- Outcome of a leave-team request. -/
inductive LeaveOutcome
  | notMember
  | leaderMustTransfer
  | left
  | teamDisbanded
deriving DecidableEq

/-- Modelled from the spec: the team controller is not under src (only its
README is).  Spec 4.2 Leave team: a Leader may leave only if no other members
remain (leadership must be transferred or team emptied first); if the last
member (the Leader) leaves, the team is deleted entirely; ordinary Members
can leave unconditionally.  Every removal also drops the team_members row. -/
def leaveTeam (db : SqlDb) (teamId userId : Nat) : LeaveOutcome × SqlDb :=
  match db.team_members.find? (fun m => m.teamId == teamId && m.userId == userId) with
  | none => (.notMember, db)
  | some m =>
    let others := db.team_members.filter (fun x => x.teamId == teamId && x.userId != userId)
    if m.role == "Leader" then
      if others.length > 0 then (.leaderMustTransfer, db)
      else
        (.teamDisbanded,
         { db with
           teamIds := db.teamIds.filter (fun t => t != teamId)
           team_members :=
             db.team_members.filter (fun x => !(x.teamId == teamId && x.userId == userId)) })
    else
      (.left,
       { db with
         team_members :=
           db.team_members.filter (fun x => !(x.teamId == teamId && x.userId == userId)) })

theorem map_ext {α β : Type} (l : List α) (f g : α → β) (h : ∀ x, f x = g x) :
    l.map f = l.map g := by
  have hfg : f = g := funext h
  rw [hfg]

/-- C9: updateAnnouncement never changes the eventId or the authorId of any
stored announcement: for every update body, including one supplying eventId
or authorId fields, the id, eventId and authorId columns of the whole
collection are unchanged; only message and isImportant may change. -/
theorem updateAnnouncement_frames_eventId_authorId
    (db : SqlDb) (anns : List AnnouncementDoc) (userId id : Nat) (body : AnnUpdateBody) :
    (updateAnnouncement db anns userId id body).2.map (fun a => (a.id, a.eventId, a.authorId)) =
      anns.map (fun a => (a.id, a.eventId, a.authorId)) := by
  simp only [updateAnnouncement]
  cases hfind : anns.find? (fun a => a.id == id) with
  | none => rfl
  | some announcement =>
    by_cases ho : organizerCount db announcement.eventId userId == 0
    · simp [ho]
    · simp only [ho, if_false, Bool.false_eq_true]
      rw [List.map_map]
      apply map_ext
      intro a
      by_cases hid : a.id == id
      · simp [Function.comp, hid, applyAnnouncementUpdate]
      · simp [Function.comp, hid]

/-- Check that no row of the response data carries the password key. -/
def noPasswordKey (resp : UserResp) : Bool :=
  resp.data.all (fun row => row.all (fun kv => kv.1 != "password"))

theorem stripPassword_all (row : List (String × String)) :
    (stripPassword row).all (fun kv => kv.1 != "password") = true := by
  rw [List.all_eq_true]
  intro kv hkv
  exact (List.mem_filter.mp hkv).2

theorem noPassword_mapStrip (l : List UserRecord) :
    (l.map (fun u => stripPassword (rowOf u))).all
      (fun row => row.all (fun kv => kv.1 != "password")) = true := by
  rw [List.all_eq_true]
  intro row hrow
  rw [List.mem_map] at hrow
  obtain ⟨u, _, rfl⟩ := hrow
  exact stripPassword_all (rowOf u)

/-- C10: no successful user-controller response carries the stored password
field: createUser, getUserById, getAllUsers, updateUser, searchUsers and
getUsersByRole strip the password key from every returned user object even
though the underlying queries select it. -/
theorem user_controller_strips_password
    (users : List UserRecord) (nextId now page limit userid : Nat)
    (b : CreateUserBody) (ub : UpdateUserBody) (q role : String) :
    noPasswordKey (createUser users nextId now b).1 = true ∧
    noPasswordKey (getUserById users userid) = true ∧
    noPasswordKey (getAllUsers users page limit) = true ∧
    noPasswordKey (updateUser users userid ub).1 = true ∧
    noPasswordKey (searchUsers users q) = true ∧
    noPasswordKey (getUsersByRole users role) = true := by
  refine ⟨?_, ?_, ?_, ?_, ?_, ?_⟩ <;>
    simp only [createUser, getUserById, getAllUsers, updateUser, searchUsers,
      getUsersByRole, noPasswordKey] <;>
    repeat' split
  all_goals first
    | rfl
    | exact noPassword_mapStrip _
    | simp [stripPassword_all]

/-- Concrete signup request used to exhibit the password-hashing code bug. -/
def aliceSignup : CreateUserBody :=
  ⟨"Alice", "alice@example.com", "secret123", "email", "participant"⟩

/-- C8: code bug.  createUser inserts the request password value itself into
the users table (the source comments: remember to hash this in production),
so after the signup of Alice the stored password column holds the plaintext
secret123 and not a password hash of it, although the repository README and
EDGE_CASES_ANALYSIS document state that bcrypt password hashing is in
place. -/
theorem createUser_stores_plaintext_password :
    (createUser [] 1 0 aliceSignup).2.map (fun u => u.password) = ["secret123"] ∧
    (createUser [] 1 0 aliceSignup).1.status = 201 ∧
    hashPassword "secret123" ≠ "secret123" := by decide

/-- C5: leave-team rules (the team controller is modelled from the spec, its
code being absent from src): a caller whose role is Leader succeeds exactly
when no other member remains, and the sole-member Leader leaving deletes the
team row; a caller whose role is Member always succeeds. -/
theorem leaveTeam_leadership_rules (db : SqlDb) (teamId userId : Nat) (m : TeamMemberRow)
    (hm : db.team_members.find? (fun x => x.teamId == teamId && x.userId == userId) = some m) :
    (m.role = "Leader" →
       (db.team_members.filter (fun x => x.teamId == teamId && x.userId != userId)).length ≠ 0 →
       (leaveTeam db teamId userId).1 = LeaveOutcome.leaderMustTransfer ∧
       (leaveTeam db teamId userId).2 = db) ∧
    (m.role = "Leader" →
       (db.team_members.filter (fun x => x.teamId == teamId && x.userId != userId)).length = 0 →
       (leaveTeam db teamId userId).1 = LeaveOutcome.teamDisbanded ∧
       (leaveTeam db teamId userId).2.teamIds = db.teamIds.filter (fun t => t != teamId)) ∧
    (m.role = "Member" →
       (leaveTeam db teamId userId).1 = LeaveOutcome.left) := by
  refine ⟨?_, ?_, ?_⟩ <;> intro hrole
  · intro hothers
    have hl : (m.role == "Leader") = true := by rw [hrole]; decide
    simp only [leaveTeam, hm]
    simp [hl, Nat.pos_of_ne_zero hothers]
  · intro hothers
    have hl : (m.role == "Leader") = true := by rw [hrole]; decide
    simp only [leaveTeam, hm]
    simp [hl, hothers]
  · have hl : (m.role == "Leader") = false := by rw [hrole]; decide
    simp only [leaveTeam, hm]
    simp [hl]

/-- Witness for the leave-team rules at concrete stores: a Leader with a
remaining Member is refused, a sole Leader disbands the team, a Member
leaves unconditionally. -/
theorem leaveTeam_leadership_rules_witness :
    (leaveTeam ⟨[], [], [1], [⟨1, 5, "Leader"⟩, ⟨1, 6, "Member"⟩], []⟩ 1 5).1 =
      LeaveOutcome.leaderMustTransfer ∧
    (leaveTeam ⟨[], [], [1], [⟨1, 5, "Leader"⟩], []⟩ 1 5).1 = LeaveOutcome.teamDisbanded ∧
    (leaveTeam ⟨[], [], [1], [⟨1, 5, "Leader"⟩, ⟨1, 6, "Member"⟩], []⟩ 1 6).1 =
      LeaveOutcome.left := by
  refine ⟨?_, ?_, ?_⟩
  · exact ((leaveTeam_leadership_rules _ 1 5 ⟨1, 5, "Leader"⟩ (by decide)).1 rfl (by decide)).1
  · exact ((leaveTeam_leadership_rules _ 1 5 ⟨1, 5, "Leader"⟩ (by decide)).2.1 rfl (by decide)).1
  · exact (leaveTeam_leadership_rules _ 1 6 ⟨1, 6, "Member"⟩ (by decide)).2.2 rfl

/-- Boolean restatement of the validator contract: every supplied named ID
exists in the relational store. -/
def allRefsExist (db : SqlDb) (ids : RefIds) : Bool :=
  (match ids.eventId with
    | some e => db.events.any (fun ev => ev.eventID == e)
    | none => true) &&
  (match ids.userId with
    | some u => db.users.any (fun x => x.userid == u)
    | none => true) &&
  (match ids.teamId with
    | some t => db.teamIds.any (fun x => x == t)
    | none => true)

/-- One error descriptor names a supplied field whose referent is missing. -/
def errNamesMissing (db : SqlDb) (ids : RefIds) (err : RefError) : Bool :=
  (err.field == "eventId" && (match ids.eventId with
    | some e => !(db.events.any (fun ev => ev.eventID == e))
    | none => false)) ||
  (err.field == "userId" && (match ids.userId with
    | some u => !(db.users.any (fun x => x.userid == u))
    | none => false)) ||
  (err.field == "teamId" && (match ids.teamId with
    | some t => !(db.teamIds.any (fun x => x == t))
    | none => false))

/-- C6: the reference validator returns the empty list exactly when every
supplied named ID exists; every returned descriptor names a supplied field
whose referent is missing; the check is a total function; and the calling
handlers createSubmission and issueCertificate answer 400 with exactly those
descriptors and an unchanged store whenever the list is non-empty. -/
theorem validateReferences_contract
    (db : SqlDb) (ids : RefIds) (subs : List SubmissionDoc) (nextId now userId : Nat)
    (req : CreateSubmissionReq) (certs : List CertificateDoc) (nextIdC organizerId : Nat)
    (reqC : IssueCertReq) :
    ((validateReferences db ids = []) ↔ (allRefsExist db ids = true)) ∧
    (validateReferences db ids).all (errNamesMissing db ids) = true ∧
    ((truthyNat req.eventId && truthyNat req.teamId && truthyStr req.title &&
        truthyStr req.description && truthyStr req.track) = true →
      validateReferences db
          { eventId := some (req.eventId.getD 0), teamId := some (req.teamId.getD 0) } ≠ [] →
      (createSubmission db subs nextId now userId req).1.status = 400 ∧
      (createSubmission db subs nextId now userId req).1.errors =
        validateReferences db
          { eventId := some (req.eventId.getD 0), teamId := some (req.teamId.getD 0) } ∧
      (createSubmission db subs nextId now userId req).2 = subs) ∧
    ((truthyNat reqC.eventId && truthyNat reqC.userId && truthyStr reqC.certificateUrl) = true →
      validateReferences db
          { eventId := some (reqC.eventId.getD 0), userId := some (reqC.userId.getD 0) } ≠ [] →
      (issueCertificate db certs nextIdC organizerId reqC).1.status = 400 ∧
      (issueCertificate db certs nextIdC organizerId reqC).1.errors =
        validateReferences db
          { eventId := some (reqC.eventId.getD 0), userId := some (reqC.userId.getD 0) } ∧
      (issueCertificate db certs nextIdC organizerId reqC).2 = certs) := by
  refine ⟨?_, ?_, ?_, ?_⟩
  · rcases ids with ⟨e, u, t⟩
    rcases e with _ | e <;> rcases u with _ | u <;> rcases t with _ | t <;>
      simp only [validateReferences, allRefsExist] <;>
      (try split_ifs) <;> simp_all [List.append_eq_nil]
  · rcases ids with ⟨e, u, t⟩
    rcases e with _ | e <;> rcases u with _ | u <;> rcases t with _ | t <;>
      simp only [validateReferences] <;>
      (try split_ifs) <;> simp_all [errNamesMissing] <;>
      (try exact fun x hx hxx => absurd (hxx ▸ hx) (by assumption))
  · intro hf hne
    have hlen : 0 < (validateReferences db
        { eventId := some (req.eventId.getD 0), teamId := some (req.teamId.getD 0) }).length :=
      List.length_pos.mpr hne
    simp only [createSubmission]
    simp [hf, hlen]
  · intro hf hne
    have hlen : 0 < (validateReferences db
        { eventId := some (reqC.eventId.getD 0), userId := some (reqC.userId.getD 0) }).length :=
      List.length_pos.mpr hne
    simp only [issueCertificate]
    simp [hf, hlen]

/-- Witness for the validator contract: a present event yields the empty
list, and createSubmission answers 400 on a dangling reference. -/
theorem validateReferences_contract_witness :
    validateReferences ⟨[], [⟨1, 9⟩], [], [], []⟩ { eventId := some 1 } = [] ∧
    (createSubmission ⟨[], [], [], [], []⟩ [] 1 0 5
        ⟨some 1, some 1, some "T", some "D", some "Tr", none, none, none, none⟩).1.status =
      400 := by
  constructor
  · exact (validateReferences_contract ⟨[], [⟨1, 9⟩], [], [], []⟩ { eventId := some 1 }
      [] 0 0 0 {} [] 0 0 {}).1.mpr (by decide)
  · exact ((validateReferences_contract ⟨[], [], [], [], []⟩ {} [] 1 0 5
      ⟨some 1, some 1, some "T", some "D", some "Tr", none, none, none, none⟩
      [] 0 0 {}).2.2.1 (by decide) (by decide)).1

/-- C7: submission authorization is role-split per operation: updateSubmission
succeeds (200) for every member of the submission team regardless of role and
answers 403 leaving the store unchanged for every non-member; deleteSubmission
succeeds (200, removing the document) only for a caller holding a Leader row
for that team and answers 403 leaving the store unchanged for every other
caller. -/
theorem submission_auth_role_split
    (db : SqlDb) (subs : List SubmissionDoc) (userId id : Nat)
    (body : UpdateSubmissionBody) (s : SubmissionDoc)
    (hfind : subs.find? (fun x => x.id == id) = some s) :
    (teamMemberCount db s.teamId userId ≠ 0 →
       (updateSubmission db subs userId id body).1.status = 200) ∧
    (teamMemberCount db s.teamId userId = 0 →
       (updateSubmission db subs userId id body).1.status = 403 ∧
       (updateSubmission db subs userId id body).2 = subs) ∧
    (teamLeaderCount db s.teamId userId ≠ 0 →
       (deleteSubmission db subs userId id).1.status = 200 ∧
       (deleteSubmission db subs userId id).2 = subs.filter (fun x => !(x.id == id))) ∧
    (teamLeaderCount db s.teamId userId = 0 →
       (deleteSubmission db subs userId id).1.status = 403 ∧
       (deleteSubmission db subs userId id).2 = subs) := by
  refine ⟨?_, ?_, ?_, ?_⟩ <;> intro h <;>
    simp only [updateSubmission, deleteSubmission, hfind] <;>
    simp [h]

/-- Witness for the submission authorization split at a concrete store: the
Member may update but not delete, a stranger may not update, the Leader may
delete. -/
theorem submission_auth_role_split_witness :
    (updateSubmission ⟨[], [], [1], [⟨1, 5, "Leader"⟩, ⟨1, 6, "Member"⟩], []⟩
        [⟨10, 1, 1, "T", "D", "Tr", none, none, [], 1, 0⟩] 6 10 {}).1.status = 200 ∧
    (updateSubmission ⟨[], [], [1], [⟨1, 5, "Leader"⟩, ⟨1, 6, "Member"⟩], []⟩
        [⟨10, 1, 1, "T", "D", "Tr", none, none, [], 1, 0⟩] 7 10 {}).1.status = 403 ∧
    (deleteSubmission ⟨[], [], [1], [⟨1, 5, "Leader"⟩, ⟨1, 6, "Member"⟩], []⟩
        [⟨10, 1, 1, "T", "D", "Tr", none, none, [], 1, 0⟩] 5 10).1.status = 200 ∧
    (deleteSubmission ⟨[], [], [1], [⟨1, 5, "Leader"⟩, ⟨1, 6, "Member"⟩], []⟩
        [⟨10, 1, 1, "T", "D", "Tr", none, none, [], 1, 0⟩] 6 10).1.status = 403 := by
  refine ⟨?_, ?_, ?_, ?_⟩
  · exact (submission_auth_role_split _ _ 6 10 {} ⟨10, 1, 1, "T", "D", "Tr", none, none, [], 1, 0⟩
      (by decide)).1 (by decide)
  · exact ((submission_auth_role_split _ _ 7 10 {} ⟨10, 1, 1, "T", "D", "Tr", none, none, [], 1, 0⟩
      (by decide)).2.1 (by decide)).1
  · exact ((submission_auth_role_split _ _ 5 10 {} ⟨10, 1, 1, "T", "D", "Tr", none, none, [], 1, 0⟩
      (by decide)).2.2.1 (by decide)).1
  · exact ((submission_auth_role_split _ _ 6 10 {} ⟨10, 1, 1, "T", "D", "Tr", none, none, [], 1, 0⟩
      (by decide)).2.2.2 (by decide)).1

/-- C2: issueCertificate answers a 4xx business-rule rejection without
writing for every request whose target user has no Enrolled enrollment row
for the target event (specifically 400 once the field, reference and
organizer gates pass), and creates the certificate when an Enrolled row
exists and the remaining checks pass. -/
theorem issueCertificate_enrollment_rule
    (db : SqlDb) (certs : List CertificateDoc) (nextId organizerId e u : Nat)
    (req : IssueCertReq) (he : req.eventId = some e) (hu : req.userId = some u) :
    (enrolledCount db e u = 0 →
       400 ≤ (issueCertificate db certs nextId organizerId req).1.status ∧
       (issueCertificate db certs nextId organizerId req).1.status < 500 ∧
       (issueCertificate db certs nextId organizerId req).2 = certs) ∧
    ((truthyNat req.eventId && truthyNat req.userId && truthyStr req.certificateUrl) = true →
      validateReferences db { eventId := some e, userId := some u } = [] →
      organizerCount db e organizerId ≠ 0 →
      enrolledCount db e u ≠ 0 →
      certs.any (fun c => c.eventId == e && c.userId == u) = false →
      (issueCertificate db certs nextId organizerId req).1.status = 201 ∧
      (issueCertificate db certs nextId organizerId req).2 =
        certs ++ [⟨nextId, e, u, req.certificateUrl.getD ""⟩]) := by
  constructor
  · intro h
    simp only [issueCertificate, he, hu, Option.getD_some]
    split
    · exact ⟨by norm_num, by norm_num, rfl⟩
    · split
      · exact ⟨by norm_num, by norm_num, rfl⟩
      · split
        · exact ⟨by norm_num, by norm_num, rfl⟩
        · simp [h]
  · intro hf hv ho henr hd
    simp only [Bool.and_eq_true] at hf
    obtain ⟨⟨h1, h2⟩, h3⟩ := hf
    rw [he] at h1
    rw [hu] at h2
    simp only [issueCertificate, he, hu, Option.getD_some]
    simp [h1, h2, h3, hv, ho, henr, hd]

/-- Witness for the enrollment rule at a concrete store: with an Enrolled row
the certificate is created (201); without one the store is unchanged. -/
theorem issueCertificate_enrollment_rule_witness :
    (issueCertificate ⟨[⟨2, "Bob", "b@x.com", "pw1234", "email", "participant", 0⟩],
        [⟨1, 9⟩], [], [], [⟨1, 2, "Enrolled"⟩]⟩ [] 1 9
        ⟨some 1, some 2, some "http"⟩).1.status = 201 ∧
    (issueCertificate ⟨[⟨2, "Bob", "b@x.com", "pw1234", "email", "participant", 0⟩],
        [⟨1, 9⟩], [], [], []⟩ [] 1 9 ⟨some 1, some 2, some "http"⟩).2 = [] := by
  constructor
  · exact ((issueCertificate_enrollment_rule _ [] 1 9 1 2 ⟨some 1, some 2, some "http"⟩
      rfl rfl).2 (by decide) (by decide) (by decide) (by decide) (by decide)).1
  · exact ((issueCertificate_enrollment_rule _ [] 1 9 1 2 ⟨some 1, some 2, some "http"⟩
      rfl rfl).1 (by decide)).2.2

theorem subKey_guard (subs : List SubmissionDoc) (e t r : Nat)
    (h : subs.any (fun s => s.eventId == e && s.teamId == t && s.round == r) = false) :
    subs.any (fun x => subKey x == (e, t, r)) = false := by
  have hext : subs.any (fun x => subKey x == (e, t, r)) =
      subs.any (fun s => s.eventId == e && s.teamId == t && s.round == r) :=
    any_ext _ _ _ (fun x => by
      show (x.eventId == e && (x.teamId == t && x.round == r)) = _
      rw [Bool.and_assoc])
  rw [hext]
  exact h

theorem certKey_guard (certs : List CertificateDoc) (e u : Nat)
    (h : certs.any (fun c => c.eventId == e && c.userId == u) = false) :
    certs.any (fun x => certKey x == (e, u)) = false := by
  have hext : certs.any (fun x => certKey x == (e, u)) =
      certs.any (fun c => c.eventId == e && c.userId == u) :=
    any_ext _ _ _ (fun x => rfl)
  rw [hext]
  exact h

/-- C1 counterexample: at a concrete store satisfying the (eventId, teamId,
round) uniqueness invariant, updateSubmission applying a body that supplies
round 1 succeeds (200) and leaves two submissions of team 1 for event 1 at
round 1, so uniqueness is not preserved by every submission operation. -/
theorem updateSubmission_breaks_uniqueness :
    subUnique
        [⟨1, 1, 1, "A", "d", "t", none, none, [], 1, 0⟩,
         ⟨2, 1, 1, "B", "d", "t", none, none, [], 2, 0⟩] = true ∧
    (updateSubmission ⟨[], [⟨1, 9⟩], [1], [⟨1, 5, "Leader"⟩], []⟩
        [⟨1, 1, 1, "A", "d", "t", none, none, [], 1, 0⟩,
         ⟨2, 1, 1, "B", "d", "t", none, none, [], 2, 0⟩] 5 2
        { round := some 1 }).1.status = 200 ∧
    subUnique
        (updateSubmission ⟨[], [⟨1, 9⟩], [1], [⟨1, 5, "Leader"⟩], []⟩
          [⟨1, 1, 1, "A", "d", "t", none, none, [], 1, 0⟩,
           ⟨2, 1, 1, "B", "d", "t", none, none, [], 2, 0⟩] 5 2
          { round := some 1 }).2 = false := by decide

/-- C1 (amended): createSubmission refuses with 409 and an unchanged store
when a submission with the requested (eventId, teamId, round) already exists
once the earlier gates pass, and creation and deletion preserve the at most
one submission per (eventId, teamId, round) invariant; updateSubmission
strips eventId and teamId from the caller-supplied body but not round, so it
can break the invariant (see the counterexample). -/
theorem submission_uniqueness_amended
    (db : SqlDb) (subs : List SubmissionDoc) (nextId now userId id : Nat)
    (req : CreateSubmissionReq) (h : subUnique subs = true) :
    subUnique (createSubmission db subs nextId now userId req).2 = true ∧
    subUnique (deleteSubmission db subs userId id).2 = true ∧
    ((truthyNat req.eventId && truthyNat req.teamId && truthyStr req.title &&
        truthyStr req.description && truthyStr req.track) = true →
      validateReferences db
          { eventId := some (req.eventId.getD 0), teamId := some (req.teamId.getD 0) } = [] →
      teamMemberCount db (req.teamId.getD 0) userId ≠ 0 →
      subs.any (fun s => s.eventId == req.eventId.getD 0 && s.teamId == req.teamId.getD 0 &&
        s.round == req.round.getD 1) = true →
      (createSubmission db subs nextId now userId req).1.status = 409 ∧
      (createSubmission db subs nextId now userId req).2 = subs) := by
  refine ⟨?_, ?_, ?_⟩
  · simp only [createSubmission]
    split
    · exact h
    · split
      · exact h
      · split
        · exact h
        · split
          · exact h
          · next hdup =>
            exact uniqueBy_append_single subKey subs _ h
              (subKey_guard subs _ _ _ (Bool.eq_false_iff.mpr hdup))
  · simp only [deleteSubmission]
    cases subs.find? (fun s => s.id == id) with
    | none => exact h
    | some s =>
      dsimp only
      by_cases hc : (teamLeaderCount db s.teamId userId == 0) = true
      · rw [if_pos hc]
        exact h
      · rw [if_neg hc]
        exact uniqueBy_filter subKey _ subs h
  · intro hf hv hm hdup
    simp only [Bool.and_eq_true] at hf
    obtain ⟨⟨⟨⟨h1, h2⟩, h3⟩, h4⟩, h5⟩ := hf
    simp only [createSubmission]
    simp [h1, h2, h3, h4, h5, hv, hm, hdup]

/-- Witness for the amended uniqueness claim: a concrete duplicate creation
attempt is refused with 409 and the store keeps the invariant. -/
theorem submission_uniqueness_amended_witness :
    subUnique (createSubmission ⟨[], [⟨1, 9⟩], [1], [⟨1, 5, "Leader"⟩], []⟩
        [⟨1, 1, 1, "A", "d", "t", none, none, [], 1, 0⟩] 2 0 5
        ⟨some 1, some 1, some "B", some "d", some "t", none, none, none, some 1⟩).2 = true ∧
    (createSubmission ⟨[], [⟨1, 9⟩], [1], [⟨1, 5, "Leader"⟩], []⟩
        [⟨1, 1, 1, "A", "d", "t", none, none, [], 1, 0⟩] 2 0 5
        ⟨some 1, some 1, some "B", some "d", some "t", none, none, none, some 1⟩).1.status =
      409 := by
  constructor
  · exact (submission_uniqueness_amended _ _ 2 0 5 0 _ (by decide)).1
  · exact ((submission_uniqueness_amended _ _ 2 0 5 0 _ (by decide)).2.2
      (by decide) (by decide) (by decide) (by decide)).1

theorem bulkStep_preserves_certUnique (db : SqlDb) (e : Nat) (url : String)
    (acc : BulkResults × List CertificateDoc × Nat) (u : Nat)
    (h : certUnique acc.2.1 = true) : certUnique (bulkStep db e url acc u).2.1 = true := by
  rcases acc with ⟨results, certs, nextId⟩
  simp only [bulkStep]
  split
  · exact h
  · split
    · exact h
    · split
      · exact h
      · next hdup =>
        exact uniqueBy_append_single certKey certs _ h
          (certKey_guard certs _ _ (Bool.eq_false_iff.mpr hdup))

theorem bulkFold_preserves_certUnique (db : SqlDb) (e : Nat) (url : String)
    (us : List Nat) (acc : BulkResults × List CertificateDoc × Nat)
    (h : certUnique acc.2.1 = true) :
    certUnique ((us.foldl (bulkStep db e url) acc)).2.1 = true := by
  induction us generalizing acc with
  | nil => exact h
  | cons u rest ih => exact ih _ (bulkStep_preserves_certUnique db e url acc u h)

/-- C3: every certificate operation preserves the at most one certificate per
(eventId, userId) invariant: issueCertificate refuses duplicates with 409 and
an unchanged store once the earlier gates pass, bulkIssueCertificates skips
already-covered targets instead of inserting, and updateCertificate changes
only the certificateUrl of an existing certificate (id, eventId and userId
columns of the collection are untouched). -/
theorem certificate_uniqueness
    (db : SqlDb) (certs : List CertificateDoc) (nextId nextIdB organizerId idU : Nat)
    (req : IssueCertReq) (breq : BulkReq) (url : Option String)
    (h : certUnique certs = true) :
    certUnique (issueCertificate db certs nextId organizerId req).2 = true ∧
    certUnique (bulkIssueCertificates db certs nextIdB organizerId breq).2 = true ∧
    certUnique (updateCertificate db certs organizerId idU url).2 = true ∧
    (updateCertificate db certs organizerId idU url).2.map (fun c => (c.id, c.eventId, c.userId)) =
      certs.map (fun c => (c.id, c.eventId, c.userId)) ∧
    ((truthyNat req.eventId && truthyNat req.userId && truthyStr req.certificateUrl) = true →
      validateReferences db
          { eventId := some (req.eventId.getD 0), userId := some (req.userId.getD 0) } = [] →
      organizerCount db (req.eventId.getD 0) organizerId ≠ 0 →
      enrolledCount db (req.eventId.getD 0) (req.userId.getD 0) ≠ 0 →
      certs.any (fun c => c.eventId == req.eventId.getD 0 &&
        c.userId == req.userId.getD 0) = true →
      (issueCertificate db certs nextId organizerId req).1.status = 409 ∧
      (issueCertificate db certs nextId organizerId req).2 = certs) := by
  refine ⟨?_, ?_, ?_, ?_, ?_⟩
  · simp only [issueCertificate]
    split
    · exact h
    · split
      · exact h
      · split
        · exact h
        · split
          · exact h
          · split
            · exact h
            · next hdup =>
              exact uniqueBy_append_single certKey certs _ h
                (certKey_guard certs _ _ (Bool.eq_false_iff.mpr hdup))
  · simp only [bulkIssueCertificates]
    split
    · exact h
    · split
      · exact h
      · split
        · exact h
        · exact bulkFold_preserves_certUnique db _ _ _ _ h
  · simp only [updateCertificate]
    split
    · exact h
    · cases certs.find? (fun c => c.id == idU) with
      | none => exact h
      | some c =>
        dsimp only
        by_cases hc : (organizerCount db c.eventId organizerId == 0) = true
        · rw [if_pos hc]
          exact h
        · rw [if_neg hc]
          exact uniqueBy_map_keyeq certKey _
            (fun x => by by_cases hx : (x.id == idU) = true <;> simp [hx, certKey]) certs h
  · simp only [updateCertificate]
    split
    · rfl
    · cases certs.find? (fun c => c.id == idU) with
      | none => rfl
      | some c =>
        dsimp only
        by_cases hc : (organizerCount db c.eventId organizerId == 0) = true
        · rw [if_pos hc]
        · rw [if_neg hc]
          dsimp only
          rw [List.map_map]
          apply map_ext
          intro x
          by_cases hx : (x.id == idU) = true <;> simp [Function.comp, hx]
  · intro hf hv ho henr hdup
    simp only [Bool.and_eq_true] at hf
    obtain ⟨⟨h1, h2⟩, h3⟩ := hf
    simp only [issueCertificate]
    simp [h1, h2, h3, hv, ho, henr, hdup]

/-- Witness for certificate uniqueness: at a concrete store a duplicate
issuance is refused with 409, and an update leaves the (id, eventId, userId)
columns unchanged. -/
theorem certificate_uniqueness_witness :
    (issueCertificate ⟨[⟨2, "Bob", "b@x.com", "pw1234", "email", "participant", 0⟩],
        [⟨1, 9⟩], [], [], [⟨1, 2, "Enrolled"⟩]⟩ [⟨7, 1, 2, "u"⟩] 8 9
        ⟨some 1, some 2, some "u2"⟩).1.status = 409 ∧
    (updateCertificate ⟨[], [⟨1, 9⟩], [], [], []⟩ [⟨7, 1, 2, "u"⟩] 9 7
        (some "u2")).2.map (fun c => (c.id, c.eventId, c.userId)) =
      ([⟨7, 1, 2, "u"⟩] : List CertificateDoc).map (fun c => (c.id, c.eventId, c.userId)) := by
  constructor
  · exact ((certificate_uniqueness _ [⟨7, 1, 2, "u"⟩] 8 0 9 0 ⟨some 1, some 2, some "u2"⟩ {}
      none (by decide)).2.2.2.2 (by decide) (by decide) (by decide) (by decide) (by decide)).1
  · exact (certificate_uniqueness _ [⟨7, 1, 2, "u"⟩] 0 0 9 7 {} {} (some "u2")
      (by decide)).2.2.2.1

/-- Total number of per-item outcomes across the three bulk lists. -/
def outcomeTotal (r : BulkResults) : Nat :=
  r.issued.length + r.skipped.length + r.errors.length

/-- Number of per-item outcomes recorded for one userId across the three
bulk lists. -/
def outcomeCount (r : BulkResults) (u : Nat) : Nat :=
  (r.issued.filter (fun p => p.1 == u)).length +
  (r.skipped.filter (fun v => v == u)).length +
  (r.errors.filter (fun p => p.1 == u)).length

theorem bulkStep_outcomeTotal (db : SqlDb) (e : Nat) (url : String)
    (acc : BulkResults × List CertificateDoc × Nat) (u : Nat) :
    outcomeTotal (bulkStep db e url acc u).1 = outcomeTotal acc.1 + 1 := by
  rcases acc with ⟨results, certs, nextId⟩
  simp only [bulkStep]
  repeat' split
  all_goals simp [outcomeTotal] <;> omega

theorem bulkStep_outcomeCount (db : SqlDb) (e : Nat) (url : String)
    (acc : BulkResults × List CertificateDoc × Nat) (u x : Nat) :
    outcomeCount (bulkStep db e url acc u).1 x =
      outcomeCount acc.1 x + (if u = x then 1 else 0) := by
  rcases acc with ⟨results, certs, nextId⟩
  simp only [bulkStep]
  repeat' split
  all_goals by_cases hux : u = x <;>
    simp [outcomeCount, List.filter_append, hux] <;> omega

theorem bulkFold_outcomeTotal (db : SqlDb) (e : Nat) (url : String)
    (us : List Nat) (acc : BulkResults × List CertificateDoc × Nat) :
    outcomeTotal ((us.foldl (bulkStep db e url) acc)).1 = outcomeTotal acc.1 + us.length := by
  induction us generalizing acc with
  | nil => simp
  | cons u rest ih =>
    rw [List.foldl_cons, ih, bulkStep_outcomeTotal]
    simp [List.length_cons]
    omega

theorem bulkFold_outcomeCount (db : SqlDb) (e : Nat) (url : String)
    (us : List Nat) (acc : BulkResults × List CertificateDoc × Nat) (x : Nat) :
    outcomeCount ((us.foldl (bulkStep db e url) acc)).1 x =
      outcomeCount acc.1 x + us.count x := by
  induction us generalizing acc with
  | nil => simp
  | cons u rest ih =>
    rw [List.foldl_cons, ih, bulkStep_outcomeCount, List.count_cons]
    by_cases hux : u = x <;> simp [hux] <;> omega

/-- C4: bulkIssueCertificates is not atomic over its targets: once the field,
event-reference and organizer gates pass on a non-empty userIds list, it
answers 200 with per-item outcomes in which every occurrence of a userId
yields exactly one entry across the issued, skipped and errors lists — no
target aborts the rest — and the summary satisfies total = length of userIds
= issued + skipped + errors. -/
theorem bulkIssueCertificates_partition
    (db : SqlDb) (certs : List CertificateDoc) (nextId organizerId e : Nat)
    (us : List Nat) (url : String)
    (he : e ≠ 0) (hus : us ≠ []) (hurl : url ≠ "")
    (hv : validateReferences db { eventId := some e } = [])
    (ho : organizerCount db e organizerId ≠ 0) :
    (bulkIssueCertificates db certs nextId organizerId
        ⟨some e, some us, some url⟩).1.status = 200 ∧
    (bulkIssueCertificates db certs nextId organizerId
        ⟨some e, some us, some url⟩).1.summary.total = us.length ∧
    (bulkIssueCertificates db certs nextId organizerId
        ⟨some e, some us, some url⟩).1.summary.issued +
      (bulkIssueCertificates db certs nextId organizerId
        ⟨some e, some us, some url⟩).1.summary.skipped +
      (bulkIssueCertificates db certs nextId organizerId
        ⟨some e, some us, some url⟩).1.summary.errors = us.length ∧
    (∀ x : Nat,
      outcomeCount (bulkIssueCertificates db certs nextId organizerId
        ⟨some e, some us, some url⟩).1.results x = us.count x) := by
  have h1 : truthyNat (some e) = true := by simp [truthyNat, he]
  have h2 : us.isEmpty = false := by
    cases us with
    | nil => exact absurd rfl hus
    | cons a l => rfl
  have h3 : truthyStr (some url) = true := by simp [truthyStr, hurl]
  have hsum : outcomeTotal ((us.foldl (bulkStep db e url) ({}, certs, nextId))).1 =
      us.length := by
    rw [bulkFold_outcomeTotal]
    simp [outcomeTotal]
  have hcount : ∀ x : Nat,
      outcomeCount ((us.foldl (bulkStep db e url) ({}, certs, nextId))).1 x = us.count x := by
    intro x
    rw [bulkFold_outcomeCount]
    simp [outcomeCount]
  simp only [bulkIssueCertificates, h1, h2, h3, Option.getD_some]
  simp only [outcomeTotal] at hsum
  refine ⟨?_, ?_, ?_, ?_⟩ <;> simp [hv, ho, hsum, hcount]

/-- Witness for the bulk partition at a concrete store: two targets, one
enrolled and one unknown, give a 200 response, a summary totalling two and
one outcome for the enrolled target. -/
theorem bulkIssueCertificates_partition_witness :
    (bulkIssueCertificates ⟨[⟨2, "Bob", "b@x.com", "pw1234", "email", "participant", 0⟩],
        [⟨1, 9⟩], [], [], [⟨1, 2, "Enrolled"⟩]⟩ [] 1 9
        ⟨some 1, some [2, 3], some "u"⟩).1.status = 200 ∧
    (bulkIssueCertificates ⟨[⟨2, "Bob", "b@x.com", "pw1234", "email", "participant", 0⟩],
        [⟨1, 9⟩], [], [], [⟨1, 2, "Enrolled"⟩]⟩ [] 1 9
        ⟨some 1, some [2, 3], some "u"⟩).1.summary.total = [2, 3].length ∧
    outcomeCount (bulkIssueCertificates ⟨[⟨2, "Bob", "b@x.com", "pw1234", "email",
        "participant", 0⟩], [⟨1, 9⟩], [], [], [⟨1, 2, "Enrolled"⟩]⟩ [] 1 9
        ⟨some 1, some [2, 3], some "u"⟩).1.results 2 = [2, 3].count 2 := by
  refine ⟨?_, ?_, ?_⟩
  · exact (bulkIssueCertificates_partition _ [] 1 9 1 [2, 3] "u" (by decide) (by decide)
      (by decide) (by decide) (by decide)).1
  · exact (bulkIssueCertificates_partition _ [] 1 9 1 [2, 3] "u" (by decide) (by decide)
      (by decide) (by decide) (by decide)).2.1
  · exact (bulkIssueCertificates_partition _ [] 1 9 1 [2, 3] "u" (by decide) (by decide)
      (by decide) (by decide) (by decide)).2.2.2 2
